import Mathlib

/-
Verification of the igw industrial protocol gateway library.

This file gives a shallow embedding, in Lean 4, of the parts of the igw
Rust source that the checked claims are about:

  * the core value / quality / batch data model       (src/core/data.rs, quality.rs)
  * the point, transform and protocol-address model   (src/core/point.rs)
  * the shorthand address parsers                     (src/gateway/address.rs)
  * the factory point-config builder                  (src/gateway/factory.rs)
  * the router trigger evaluation                     (src/router/data_router.rs, mapping.rs)
  * the J1939 CAN-id parser, SPN table and SPN decode (src/protocols/j1939/client.rs, database.rs)

Modelling conventions:
  * Rust `f64` is idealised as the exact rationals `ℚ`; every float literal in
    the embedded source is an exact decimal, which `ℚ` represents exactly.
  * Rust machine integers are `Nat`/`Int` with explicit `% 2 ^ w` where the
    source relies on wrapping (the only such place is the `as i64 as u64`
    reinterpretation in `decode_spn`, modelled by `u64_of_int`).
  * `HashMap` state is modelled as an association list where insertion
    prepends; `List.lookup` then returns the most recent binding, matching
    `HashMap::insert` / `HashMap::get` observably.
  * Fallible Rust functions returning `Result` become `Except GatewayError`.
  * `Instant` timestamps are abstract `Nat` ticks passed in as a `now`
    parameter; `duration_since` becomes truncated `Nat` subtraction (the
    router is single-task, so `now` is never earlier than a stored stamp).
-/

namespace Igw

/-! ## Core data model (src/core/data.rs) -/

/-- The four types of remote data in SCADA systems (enum `DataType`). -/
inductive DataType where
  | Telemetry
  | Signal
  | Control
  | Adjustment
deriving DecidableEq, Repr

/-- A protocol-agnostic value representation (enum `Value`); `f64` is
idealised as `ℚ`. -/
inductive Value where
  | Float (v : ℚ)
  | Integer (v : Int)
  | Bool (b : Bool)
  | String (s : String)
  | Bytes (bs : List Nat)
  | Null
deriving DecidableEq, Repr

/-- Method `Value::as_f64`: numeric coercion to `f64` (here `ℚ`);
booleans coerce as 0/1, strings, bytes and null do not coerce. -/
def Value.as_f64 : Value → Option ℚ
  | .Float v => some v
  | .Integer v => some (v : ℚ)
  | .Bool b => some (if b then 1 else 0)
  | _ => none

/-- Method `Value::is_null` (within the `Value` namespace a plain `Bool`
annotation would capture the constructor, so the result type is inferred). -/
def Value.is_null (v : Value) :=
  match v with
  | .Null => true
  | _ => false

/-! ## Quality (src/core/quality.rs) -/

/-- Data quality indicator (enum `Quality`). -/
inductive Quality where
  | Good
  | Bad
  | Uncertain
  | Invalid
  | NotConnected
  | DeviceFailure
  | SensorFailure
  | CommFailure
  | OutOfService
  | Substituted
  | Overflow
  | Underflow
  | ConfigError
  | LastKnown
deriving DecidableEq, Repr

/-- Method `Quality::to_opc_status`: OPC UA status code (u32) for a quality. -/
def Quality.to_opc_status : Quality → Nat
  | .Good => 0x00000000
  | .Bad => 0x80000000
  | .Uncertain => 0x40000000
  | .Invalid => 0x80010000
  | .NotConnected => 0x80080000
  | .DeviceFailure => 0x80100000
  | .SensorFailure => 0x80110000
  | .CommFailure => 0x80130000
  | .OutOfService => 0x80870000
  | .Substituted => 0x40920000
  | .Overflow => 0x80780000
  | .Underflow => 0x80780000
  | .ConfigError => 0x80890000
  | .LastKnown => 0x408F0000

/-- Method `Quality::from_opc_status`: collapse a status code to
Good / Uncertain / Bad by its severity bits (top two bits). -/
def Quality.from_opc_status (status : Nat) : Quality :=
  let severity := status &&& 0xC0000000
  if severity = 0x00000000 then .Good
  else if severity = 0x40000000 then .Uncertain
  else .Bad

/-! ## Data points and batches (src/core/data.rs) -/

/-- A single data point with timestamp and quality (struct `DataPoint`);
`DateTime<Utc>` timestamps are abstract `Nat` ticks. -/
structure DataPoint where
  id : Nat
  data_type : DataType
  value : Value
  quality : Quality
  timestamp : Nat
  source_timestamp : Option Nat
deriving DecidableEq, Repr

/-- A batch of data points, organized by type (struct `DataBatch`). -/
structure DataBatch where
  telemetry : List DataPoint
  signal : List DataPoint
  control : List DataPoint
  adjustment : List DataPoint
deriving DecidableEq, Repr

/-- Constructor `DataBatch::new` (same as `Default`). -/
def DataBatch.new : DataBatch :=
  { telemetry := [], signal := [], control := [], adjustment := [] }

/-- Method `DataBatch::add`: dispatch a point to the list selected by its
`data_type`; `Vec::push` appends at the end. -/
def DataBatch.add (b : DataBatch) (point : DataPoint) : DataBatch :=
  match point.data_type with
  | .Telemetry => { b with telemetry := b.telemetry ++ [point] }
  | .Signal => { b with signal := b.signal ++ [point] }
  | .Control => { b with control := b.control ++ [point] }
  | .Adjustment => { b with adjustment := b.adjustment ++ [point] }

/-- Method `DataBatch::len`. -/
def DataBatch.len (b : DataBatch) : Nat :=
  b.telemetry.length + b.signal.length + b.control.length + b.adjustment.length

/-- Method `DataBatch::is_empty`. -/
def DataBatch.is_empty (b : DataBatch) : Bool :=
  b.len = 0

/-- Method `DataBatch::merge`: list-wise concatenation. -/
def DataBatch.merge (b : DataBatch) (other : DataBatch) : DataBatch :=
  { telemetry := b.telemetry ++ other.telemetry
    signal := b.signal ++ other.signal
    control := b.control ++ other.control
    adjustment := b.adjustment ++ other.adjustment }

/-- Method `DataBatch::iter`: telemetry, then signal, then control, then
adjustment, chained in order. -/
def DataBatch.iter (b : DataBatch) : List DataPoint :=
  b.telemetry ++ b.signal ++ b.control ++ b.adjustment

/-- A sequence of `DataBatch::add` calls starting from a batch. -/
def DataBatch.addAll (b : DataBatch) (points : List DataPoint) : DataBatch :=
  points.foldl DataBatch.add b

/-! ## Transform configuration (src/core/point.rs) -/

/-- Data transformation configuration (struct `TransformConfig`);
`f64` fields idealised as `ℚ`. -/
structure TransformConfig where
  scale : ℚ
  offset : ℚ
  reverse : Bool
  deadband : Option ℚ
  min_value : Option ℚ
  max_value : Option ℚ
deriving DecidableEq, Repr

/-- The `Default` instance: `scale = 1.0` (via `default_scale`), everything
else zero / false / absent. -/
def TransformConfig.default_ : TransformConfig :=
  { scale := 1, offset := 0, reverse := false,
    deadband := none, min_value := none, max_value := none }

/-- Constructor `TransformConfig::linear`. -/
def TransformConfig.linear (scale offset : ℚ) : TransformConfig :=
  { TransformConfig.default_ with scale := scale, offset := offset }

/-- Method `TransformConfig::apply`: `raw * scale + offset`. -/
def TransformConfig.apply (t : TransformConfig) (raw : ℚ) : ℚ :=
  raw * t.scale + t.offset

/-- Method `TransformConfig::reverse_apply`: `(value - offset) / scale`. -/
def TransformConfig.reverse_apply (t : TransformConfig) (value : ℚ) : ℚ :=
  (value - t.offset) / t.scale

/-- Method `TransformConfig::apply_bool`: negate when `reverse` is set. -/
def TransformConfig.apply_bool (t : TransformConfig) (raw : Bool) : Bool :=
  if t.reverse then !raw else raw

/-! ## Protocol addresses (src/core/point.rs) -/

/-- Data format for Modbus protocol values (enum `DataFormat`). -/
inductive DataFormat where
  | Bool
  | UInt16
  | Int16
  | UInt32
  | Int32
  | UInt64
  | Int64
  | Float32
  | Float64
  | String
deriving DecidableEq, Repr

/-- Byte order for multi-byte Modbus values (enum `ByteOrder`). -/
inductive ByteOrder where
  | Abcd
  | Dcba
  | Badc
  | Cdab
deriving DecidableEq, Repr

/-- Modbus register address (struct `ModbusAddress`). -/
structure ModbusAddress where
  slave_id : Nat
  function_code : Nat
  register : Nat
  format : DataFormat
  byte_order : ByteOrder
  bit_position : Option Nat
deriving DecidableEq, Repr

/-- Constructor `ModbusAddress::holding_register` (FC03, default byte order,
no bit position). -/
def ModbusAddress.holding_register (slave_id register : Nat) (format : DataFormat) :
    ModbusAddress :=
  { slave_id := slave_id, function_code := 3, register := register,
    format := format, byte_order := .Abcd, bit_position := none }

/-- IEC 60870-5-104 address (struct `Iec104Address`). -/
structure Iec104Address where
  ioa : Nat
  type_id : Nat
  common_address : Nat
deriving DecidableEq, Repr

/-- OPC UA node address (struct `OpcUaAddress`). -/
structure OpcUaAddress where
  node_id : String
  namespace_index : Nat
deriving DecidableEq, Repr

/-- DNP3 point types (enum `Dnp3PointType`). -/
inductive Dnp3PointType where
  | BinaryInput
  | BinaryOutput
  | AnalogInput
  | AnalogOutput
  | Counter
deriving DecidableEq, Repr

/-- DNP3 address (struct `Dnp3Address`). -/
structure Dnp3Address where
  point_type : Dnp3PointType
  index : Nat
deriving DecidableEq, Repr

/-- Virtual channel address (struct `VirtualAddress`). -/
structure VirtualAddress where
  group : Option String
  tag : String
deriving DecidableEq, Repr

/-- Constructor `VirtualAddress::new`. -/
def VirtualAddress.new (tag : String) : VirtualAddress :=
  { group := none, tag := tag }

/-- Tagged protocol address (enum `ProtocolAddress`); the feature-gated
`Gpio` variant is omitted (the `gpio` cargo feature is off by default). -/
inductive ProtocolAddress where
  | Modbus (a : ModbusAddress)
  | Iec104 (a : Iec104Address)
  | OpcUa (a : OpcUaAddress)
  | Dnp3 (a : Dnp3Address)
  | Virtual (a : VirtualAddress)
  | Generic (s : String)
deriving DecidableEq, Repr

/-! ## Errors (src/core/error.rs)

Only the `Config` variant of `GatewayError` is constructed by the functions
embedded here, so the other (payload-carrying) variants are not modelled. -/

/-- Gateway error (enum `GatewayError`), restricted to the `Config(String)`
variant used by the address parsers and the factory. -/
inductive GatewayError where
  | Config (msg : String)
deriving DecidableEq, Repr

/-! ## Shorthand address parsing (src/gateway/address.rs) -/

/-- Rust `str::split` on a single separator character, here `:` as used by
the address parsers: splitting never yields an empty list, an empty input
yields one empty part, and adjacent separators yield empty parts. -/
def split_colon : List Char → List (List Char)
  | [] => [[]]
  | c :: cs =>
    if c = ':' then [] :: split_colon cs
    else
      match split_colon cs with
      | [] => [[c]]
      | p :: ps => (c :: p) :: ps

/-- Rust `str::parse::<uN>` for an unsigned integer of bit width `width`:
an optional leading plus sign, then one or more ASCII digits, rejecting
values that overflow the width. -/
def parse_uint (width : Nat) (s : String) : Option Nat :=
  let cs :=
    match s.toList with
    | '+' :: rest => rest
    | cs => cs
  if cs = [] then none
  else if cs.all (fun c => c.isDigit) then
    let n := cs.foldl (fun a c => a * 10 + (c.toNat - 48)) 0
    if n < 2 ^ width then some n else none
  else none

/-- Function `parse_modbus_address`: `"slave_id:register"` or
`"slave_id:register:function_code"`, defaulting `function_code = 3`,
`format = DataFormat::default() = UInt16`,
`byte_order = ByteOrder::default() = Abcd` and no bit position. -/
def parse_modbus_address (address : String) : Except GatewayError ProtocolAddress :=
  let parts := (split_colon address.toList).map String.mk
  match parts with
  | [p0, p1] =>
    match parse_uint 8 p0 with
    | none => .error (.Config ("Invalid slave_id: " ++ p0))
    | some slave_id =>
      match parse_uint 16 p1 with
      | none => .error (.Config ("Invalid register: " ++ p1))
      | some register =>
        .ok (.Modbus (ModbusAddress.holding_register slave_id register .UInt16))
  | [p0, p1, p2] =>
    match parse_uint 8 p0 with
    | none => .error (.Config ("Invalid slave_id: " ++ p0))
    | some slave_id =>
      match parse_uint 16 p1 with
      | none => .error (.Config ("Invalid register: " ++ p1))
      | some register =>
        match parse_uint 8 p2 with
        | none => .error (.Config ("Invalid function_code: " ++ p2))
        | some function_code =>
          .ok (.Modbus { slave_id := slave_id, register := register,
                         function_code := function_code, format := .UInt16,
                         byte_order := .Abcd, bit_position := none })
  | _ =>
    .error (.Config ("Invalid Modbus address format: " ++ address ++
      ". Expected slave_id:register or slave_id:register:function_code"))

/-- Function `parse_iec104_address`: `"ioa"` or `"ioa:type_id"`, defaulting
`type_id = 0` and `common_address = 1`. -/
def parse_iec104_address (address : String) : Except GatewayError ProtocolAddress :=
  let parts := (split_colon address.toList).map String.mk
  match parts with
  | [p0] =>
    match parse_uint 32 p0 with
    | none => .error (.Config ("Invalid IOA: " ++ p0))
    | some ioa => .ok (.Iec104 { ioa := ioa, type_id := 0, common_address := 1 })
  | [p0, p1] =>
    match parse_uint 32 p0 with
    | none => .error (.Config ("Invalid IOA: " ++ p0))
    | some ioa =>
      match parse_uint 8 p1 with
      | none => .error (.Config ("Invalid type_id: " ++ p1))
      | some type_id =>
        .ok (.Iec104 { ioa := ioa, type_id := type_id, common_address := 1 })
  | _ =>
    .error (.Config ("Invalid IEC104 address format: " ++ address ++
      ". Expected ioa or ioa:type_id"))

/-- Node-id validation tail of `parse_opcua_address`: the node id must start
with `i=`, `s=`, `g=` or `b=`. -/
def opcua_check_node_id (node_id : String) (namespace_index : Nat) :
    Except GatewayError ProtocolAddress :=
  let cs := node_id.toList
  if ['i', '='].isPrefixOf cs ∨ ['s', '='].isPrefixOf cs ∨
      ['g', '='].isPrefixOf cs ∨ ['b', '='].isPrefixOf cs then
    .ok (.OpcUa { node_id := node_id, namespace_index := namespace_index })
  else
    .error (.Config ("Invalid OPC UA node ID: " ++ node_id ++
      ". Expected i=N, s=Name, g=GUID, or b=Base64"))

/-- Function `parse_opcua_address`: an optional `ns=N;` namespace prefix
(found via the first `;`), then a validated node id. -/
def parse_opcua_address (address : String) : Except GatewayError ProtocolAddress :=
  let cs := address.toList
  if ['n', 's', '='].isPrefixOf cs then
    match cs.dropWhile (fun c => c ≠ ';') with
    | [] =>
      .error (.Config ("Invalid OPC UA address format: " ++ address ++
        ". Expected ns=N;i=ID or ns=N;s=Name"))
    | _ :: node_cs =>
      let ns_str := String.mk ((cs.takeWhile (fun c => c ≠ ';')).drop 3)
      match parse_uint 16 ns_str with
      | none => .error (.Config ("Invalid namespace: " ++ ns_str))
      | some ns => opcua_check_node_id (String.mk node_cs) ns
  else
    opcua_check_node_id address 0

/-- Function `parse_can_address`: stored verbatim as a `Generic` address. -/
def parse_can_address (address : String) : Except GatewayError ProtocolAddress :=
  .ok (.Generic address)

/-- Function `parse_address`: dispatch on the lower-cased protocol keyword.
The `gpio` arm is compiled out (feature-gated), so `"gpio"` falls through to
the unknown-protocol error. -/
def parse_address (protocol address : String) : Except GatewayError ProtocolAddress :=
  match protocol.toLower with
  | "modbus" => parse_modbus_address address
  | "iec104" => parse_iec104_address address
  | "opcua" => parse_opcua_address address
  | "can" => parse_can_address address
  | "virtual" => .ok (.Virtual (VirtualAddress.new address))
  | _ => .error (.Config ("Unknown protocol: " ++ protocol))

/-! ## Channel configuration and factory (src/gateway/config.rs, factory.rs) -/

/-- Channel mode (enum `ChannelModeConfig`). -/
inductive ChannelModeConfig where
  | Polling
  | Event
  | Hybrid
deriving DecidableEq, Repr

/-- Untyped protocol-specific parameters (`serde_json::Value`), with numbers
idealised as `ℚ`. -/
inductive Json where
  | null
  | bool (b : Bool)
  | num (n : ℚ)
  | str (s : String)
  | arr (elems : List Json)
  | obj (fields : List (String × Json))

/-- Point definition with shorthand address (struct `PointDef`). -/
structure PointDef where
  id : Nat
  name : String
  address : String
  transform : TransformConfig
  enabled : Bool

/-- Channel configuration (struct `ChannelConfig`). -/
structure ChannelConfig where
  id : Nat
  name : String
  protocol : String
  enabled : Bool
  mode : ChannelModeConfig
  poll_interval_ms : Option Nat
  parameters : Json
  points : List PointDef

/-- Parsed point configuration as constructed by the factory
(struct `PointConfig`, with exactly the fields `build_point_configs`
fills in). -/
structure PointConfig where
  id : Nat
  name : Option String
  address : ProtocolAddress
  transform : TransformConfig
  poll_group : Option String
  enabled : Bool
deriving DecidableEq, Repr

/-- Loop body of `build_point_configs`: disabled points are skipped, the
first failing `parse_address` aborts with its error (the `?` operator), and
each successfully parsed enabled point is appended in order. -/
def build_point_configs_loop (protocol : String) :
    List PointDef → Except GatewayError (List PointConfig)
  | [] => .ok []
  | point_def :: rest =>
    if !point_def.enabled then build_point_configs_loop protocol rest
    else
      match parse_address protocol point_def.address with
      | .error e => .error e
      | .ok address =>
        match build_point_configs_loop protocol rest with
        | .error e => .error e
        | .ok ps =>
          .ok ({ id := point_def.id, name := some point_def.name,
                 address := address, transform := point_def.transform,
                 poll_group := none, enabled := true } :: ps)

/-- Function `build_point_configs` (src/gateway/factory.rs): convert a
channel configuration into the list of parsed point configurations. Every
`create_*_channel` builder in factory.rs calls this with `?`, so an error
here is an error of `create_channel` as a whole. -/
def build_point_configs (config : ChannelConfig) :
    Except GatewayError (List PointConfig) :=
  build_point_configs_loop config.protocol config.points

/-! ## Router mappings and triggers (src/router/mapping.rs) -/

/-- Trigger condition for conditional forwarding (enum `TriggerCondition`);
`f64` thresholds idealised as `ℚ`, milliseconds as `Nat`. -/
inductive TriggerCondition where
  | Always
  | OnChange
  | Threshold (min max : Option ℚ)
  | Interval (min_interval_ms : Nat)
  | Deadband (deadband : ℚ)
deriving DecidableEq, Repr

/-- A single point mapping rule (struct `PointMapping`); the router keys its
state on `(source_channel, source_point)`, where `source_point` is a string
point id. -/
structure PointMapping where
  source_channel : Nat
  source_point : String
  target_channel : Nat
  target_point : Option String
  transform : TransformConfig
  enabled : Bool
  trigger : Option TriggerCondition
deriving DecidableEq, Repr

/-- Method `PointMapping::effective_target_point`. -/
def PointMapping.effective_target_point (m : PointMapping) : String :=
  m.target_point.getD m.source_point

/-! ## Router trigger evaluation (src/router/data_router.rs)

The two `HashMap`s of `RouterState` are association lists; insertion
prepends, and `List.lookup` returns the most recent binding. The router is
a single task, so `DataRouter::should_forward` is a function from the state
(plus the current `Instant`, an abstract `now : Nat`) to the forwarding
decision and the updated state. -/

/-- Rust `f64::abs`, written out so that the embedding evaluates by kernel
reduction (the Mathlib `|x|` notation is provably equal, see
`f64_abs_eq_abs`). -/
def f64_abs (x : ℚ) : ℚ :=
  if x < 0 then -x else x

/-- Router trigger state (struct `RouterState`). -/
structure RouterState where
  last_values : List ((Nat × String) × Value)
  last_forward : List ((Nat × String) × Nat)
deriving DecidableEq, Repr

/-- Method `DataRouter::should_forward`: evaluate the mapping trigger on an
incoming point, returning the decision and the updated state. An absent
trigger means `Always`. -/
def should_forward (now : Nat) (state : RouterState) (mapping : PointMapping)
    (point : DataPoint) : Bool × RouterState :=
  match mapping.trigger.getD .Always with
  | .Always => (true, state)
  | .OnChange =>
    let key := (mapping.source_channel, mapping.source_point)
    let changed := state.last_values.lookup key ≠ some point.value
    if changed then
      (true, { state with last_values := (key, point.value) :: state.last_values })
    else (false, state)
  | .Threshold min max =>
    match point.value.as_f64 with
    | some v =>
      let above_min : Bool := min.elim true (fun m => decide (m ≤ v))
      let below_max : Bool := max.elim true (fun m => decide (v ≤ m))
      (above_min && below_max, state)
    | none => (true, state)
  | .Interval min_interval_ms =>
    let key := (mapping.source_channel, mapping.source_point)
    match state.last_forward.lookup key with
    | some last =>
      if now - last < min_interval_ms then (false, state)
      else (true, { state with last_forward := (key, now) :: state.last_forward })
    | none => (true, { state with last_forward := (key, now) :: state.last_forward })
  | .Deadband deadband =>
    let key := (mapping.source_channel, mapping.source_point)
    match point.value.as_f64 with
    | some v =>
      match (state.last_values.lookup key).bind Value.as_f64 with
      | some last_value =>
        if f64_abs (v - last_value) < deadband then (false, state)
        else (true, { state with last_values := (key, point.value) :: state.last_values })
      | none =>
        (true, { state with last_values := (key, point.value) :: state.last_values })
    | none => (true, state)


/-! ## J1939 CAN id parsing and SPN decode (src/protocols/j1939/client.rs) -/

/-- Method `J1939Client::parse_can_id`: split a 29-bit extended CAN id into
`(priority, pgn, ps, sa)`; `pf ≥ 240` is PDU2 (broadcast) and includes `ps`
in the PGN, `pf < 240` is PDU1 (destination-specific) and does not. -/
def parse_can_id (can_id : Nat) : Nat × Nat × Nat × Nat :=
  let sa := can_id &&& 0xFF
  let ps := (can_id >>> 8) &&& 0xFF
  let pf := (can_id >>> 16) &&& 0xFF
  let dp := (can_id >>> 24) &&& 0x01
  let priority := (can_id >>> 26) &&& 0x07
  let pgn :=
    if 240 ≤ pf then (dp <<< 16) ||| (pf <<< 8) ||| ps
    else (dp <<< 16) ||| (pf <<< 8)
  (priority, pgn, ps, sa)

/-! ## J1939 SPN database (src/protocols/j1939/database.rs) -/

/-- Data type for SPN values (enum `SpnDataType`). -/
inductive SpnDataType where
  | Uint8
  | Uint16
  | Uint32
  | Int8
  | Int16
  | Int32
deriving DecidableEq, Repr

/-- SPN definition structure (struct `SpnDef`); `f64` scale and offset
idealised as `ℚ` (every literal in the table is an exact decimal). -/
structure SpnDef where
  spn : Nat
  name : String
  pgn : Nat
  start_byte : Nat
  start_bit : Nat
  bit_length : Nat
  scale : ℚ
  offset : ℚ
  unit : String
  data_type : SpnDataType
deriving DecidableEq, Repr

set_option maxHeartbeats 2000000 in
/-- Static table `SPN_DEFINITIONS`, transcribed entry by entry from
src/protocols/j1939/database.rs (87 entries, in source order). -/
def SPN_DEFINITIONS : List SpnDef := [
  { spn := 899, name := "engine_torque_mode", pgn := 61444, start_byte := 0,
    start_bit := 0, bit_length := 4, scale := 1.0, offset := 0.0,
    unit := "", data_type := .Uint8 },
  { spn := 4154, name := "actual_engine_retarder_percent", pgn := 61444, start_byte := 1,
    start_bit := 0, bit_length := 8, scale := 1.0, offset := -125.0,
    unit := "%", data_type := .Uint8 },
  { spn := 512, name := "drivers_demand_engine_percent", pgn := 61444, start_byte := 1,
    start_bit := 0, bit_length := 8, scale := 1.0, offset := -125.0,
    unit := "%", data_type := .Uint8 },
  { spn := 513, name := "actual_engine_percent_torque", pgn := 61444, start_byte := 2,
    start_bit := 0, bit_length := 8, scale := 1.0, offset := -125.0,
    unit := "%", data_type := .Uint8 },
  { spn := 190, name := "engine_speed", pgn := 61444, start_byte := 3,
    start_bit := 0, bit_length := 16, scale := 0.125, offset := 0.0,
    unit := "RPM", data_type := .Uint16 },
  { spn := 1483, name := "eec1_source_address", pgn := 61444, start_byte := 5,
    start_bit := 0, bit_length := 8, scale := 1.0, offset := 0.0,
    unit := "", data_type := .Uint8 },
  { spn := 1675, name := "engine_starter_mode", pgn := 61444, start_byte := 6,
    start_bit := 0, bit_length := 4, scale := 1.0, offset := 0.0,
    unit := "", data_type := .Uint8 },
  { spn := 2432, name := "engine_demand_percent_torque", pgn := 61444, start_byte := 7,
    start_bit := 0, bit_length := 8, scale := 1.0, offset := -125.0,
    unit := "%", data_type := .Uint8 },
  { spn := 558, name := "accelerator_pedal_1_low_switch", pgn := 61443, start_byte := 0,
    start_bit := 0, bit_length := 2, scale := 1.0, offset := 0.0,
    unit := "", data_type := .Uint8 },
  { spn := 559, name := "accelerator_pedal_kickdown", pgn := 61443, start_byte := 0,
    start_bit := 2, bit_length := 2, scale := 1.0, offset := 0.0,
    unit := "", data_type := .Uint8 },
  { spn := 1437, name := "road_speed_limit_status", pgn := 61443, start_byte := 0,
    start_bit := 4, bit_length := 2, scale := 1.0, offset := 0.0,
    unit := "", data_type := .Uint8 },
  { spn := 2970, name := "accelerator_pedal_2_low_switch", pgn := 61443, start_byte := 0,
    start_bit := 6, bit_length := 2, scale := 1.0, offset := 0.0,
    unit := "", data_type := .Uint8 },
  { spn := 91, name := "accelerator_pedal_position_1", pgn := 61443, start_byte := 1,
    start_bit := 0, bit_length := 8, scale := 0.4, offset := 0.0,
    unit := "%", data_type := .Uint8 },
  { spn := 92, name := "percent_load_current_speed", pgn := 61443, start_byte := 2,
    start_bit := 0, bit_length := 8, scale := 1.0, offset := 0.0,
    unit := "%", data_type := .Uint8 },
  { spn := 974, name := "remote_accelerator_position", pgn := 61443, start_byte := 3,
    start_bit := 0, bit_length := 8, scale := 0.4, offset := 0.0,
    unit := "%", data_type := .Uint8 },
  { spn := 29, name := "accelerator_pedal_position_2", pgn := 61443, start_byte := 4,
    start_bit := 0, bit_length := 8, scale := 0.4, offset := 0.0,
    unit := "%", data_type := .Uint8 },
  { spn := 2979, name := "vehicle_acceleration_rate_limit", pgn := 61443, start_byte := 5,
    start_bit := 0, bit_length := 8, scale := 1.0, offset := 0.0,
    unit := "", data_type := .Uint8 },
  { spn := 5021, name := "momentary_engine_max_power_enable", pgn := 61443, start_byte := 6,
    start_bit := 0, bit_length := 2, scale := 1.0, offset := 0.0,
    unit := "", data_type := .Uint8 },
  { spn := 514, name := "nominal_friction_percent_torque", pgn := 65247, start_byte := 0,
    start_bit := 0, bit_length := 8, scale := 1.0, offset := -125.0,
    unit := "%", data_type := .Uint8 },
  { spn := 515, name := "engine_desired_operating_speed", pgn := 65247, start_byte := 1,
    start_bit := 0, bit_length := 16, scale := 0.125, offset := 0.0,
    unit := "RPM", data_type := .Uint16 },
  { spn := 519, name := "engine_operating_speed_asymmetry_adjust", pgn := 65247, start_byte := 3,
    start_bit := 0, bit_length := 8, scale := 1.0, offset := 0.0,
    unit := "", data_type := .Uint8 },
  { spn := 2978, name := "estimated_engine_parasitic_losses", pgn := 65247, start_byte := 4,
    start_bit := 0, bit_length := 8, scale := 1.0, offset := -125.0,
    unit := "%", data_type := .Uint8 },
  { spn := 6595, name := "aftertreatment_1_exhaust_gas_mass_flow", pgn := 65247, start_byte := 5,
    start_bit := 0, bit_length := 16, scale := 0.2, offset := 0.0,
    unit := "kg/h", data_type := .Uint16 },
  { spn := 110, name := "engine_coolant_temperature", pgn := 65262, start_byte := 0,
    start_bit := 0, bit_length := 8, scale := 1.0, offset := -40.0,
    unit := "°C", data_type := .Uint8 },
  { spn := 174, name := "fuel_temperature", pgn := 65262, start_byte := 1,
    start_bit := 0, bit_length := 8, scale := 1.0, offset := -40.0,
    unit := "°C", data_type := .Uint8 },
  { spn := 175, name := "engine_oil_temperature_1", pgn := 65262, start_byte := 2,
    start_bit := 0, bit_length := 16, scale := 0.03125, offset := -273.0,
    unit := "°C", data_type := .Uint16 },
  { spn := 176, name := "turbo_oil_temperature", pgn := 65262, start_byte := 4,
    start_bit := 0, bit_length := 16, scale := 0.03125, offset := -273.0,
    unit := "°C", data_type := .Uint16 },
  { spn := 52, name := "engine_intercooler_temperature", pgn := 65262, start_byte := 6,
    start_bit := 0, bit_length := 8, scale := 1.0, offset := -40.0,
    unit := "°C", data_type := .Uint8 },
  { spn := 1134, name := "engine_intercooler_thermostat_opening", pgn := 65262, start_byte := 7,
    start_bit := 0, bit_length := 8, scale := 0.4, offset := 0.0,
    unit := "%", data_type := .Uint8 },
  { spn := 94, name := "fuel_delivery_pressure", pgn := 65263, start_byte := 0,
    start_bit := 0, bit_length := 8, scale := 4.0, offset := 0.0,
    unit := "kPa", data_type := .Uint8 },
  { spn := 22, name := "extended_crankcase_blowby_pressure", pgn := 65263, start_byte := 1,
    start_bit := 0, bit_length := 8, scale := 0.05, offset := 0.0,
    unit := "kPa", data_type := .Uint8 },
  { spn := 98, name := "engine_oil_level", pgn := 65263, start_byte := 2,
    start_bit := 0, bit_length := 8, scale := 0.4, offset := 0.0,
    unit := "%", data_type := .Uint8 },
  { spn := 100, name := "engine_oil_pressure", pgn := 65263, start_byte := 3,
    start_bit := 0, bit_length := 8, scale := 4.0, offset := 0.0,
    unit := "kPa", data_type := .Uint8 },
  { spn := 101, name := "crankcase_pressure", pgn := 65263, start_byte := 4,
    start_bit := 0, bit_length := 16, scale := 0.0078125, offset := -250.0,
    unit := "kPa", data_type := .Uint16 },
  { spn := 109, name := "coolant_pressure", pgn := 65263, start_byte := 6,
    start_bit := 0, bit_length := 8, scale := 2.0, offset := 0.0,
    unit := "kPa", data_type := .Uint8 },
  { spn := 111, name := "coolant_level", pgn := 65263, start_byte := 7,
    start_bit := 0, bit_length := 8, scale := 0.4, offset := 0.0,
    unit := "%", data_type := .Uint8 },
  { spn := 81, name := "particulate_trap_inlet_pressure", pgn := 65270, start_byte := 0,
    start_bit := 0, bit_length := 8, scale := 0.5, offset := 0.0,
    unit := "kPa", data_type := .Uint8 },
  { spn := 102, name := "boost_pressure", pgn := 65270, start_byte := 1,
    start_bit := 0, bit_length := 8, scale := 2.0, offset := 0.0,
    unit := "kPa", data_type := .Uint8 },
  { spn := 105, name := "intake_manifold_temperature", pgn := 65270, start_byte := 2,
    start_bit := 0, bit_length := 8, scale := 1.0, offset := -40.0,
    unit := "°C", data_type := .Uint8 },
  { spn := 106, name := "air_inlet_pressure", pgn := 65270, start_byte := 3,
    start_bit := 0, bit_length := 8, scale := 2.0, offset := 0.0,
    unit := "kPa", data_type := .Uint8 },
  { spn := 107, name := "air_filter_differential_pressure", pgn := 65270, start_byte := 4,
    start_bit := 0, bit_length := 8, scale := 0.05, offset := 0.0,
    unit := "kPa", data_type := .Uint8 },
  { spn := 173, name := "exhaust_gas_temperature", pgn := 65270, start_byte := 5,
    start_bit := 0, bit_length := 16, scale := 0.03125, offset := -273.0,
    unit := "°C", data_type := .Uint16 },
  { spn := 112, name := "coolant_filter_differential_pressure", pgn := 65270, start_byte := 7,
    start_bit := 0, bit_length := 8, scale := 0.5, offset := 0.0,
    unit := "kPa", data_type := .Uint8 },
  { spn := 114, name := "net_battery_current", pgn := 65271, start_byte := 0,
    start_bit := 0, bit_length := 16, scale := 1.0, offset := -125.0,
    unit := "A", data_type := .Int16 },
  { spn := 115, name := "alternator_current", pgn := 65271, start_byte := 2,
    start_bit := 0, bit_length := 16, scale := 1.0, offset := 0.0,
    unit := "A", data_type := .Uint16 },
  { spn := 168, name := "battery_potential", pgn := 65271, start_byte := 4,
    start_bit := 0, bit_length := 16, scale := 0.05, offset := 0.0,
    unit := "V", data_type := .Uint16 },
  { spn := 158, name := "keyswitch_battery_potential", pgn := 65271, start_byte := 6,
    start_bit := 0, bit_length := 16, scale := 0.05, offset := 0.0,
    unit := "V", data_type := .Uint16 },
  { spn := 108, name := "barometric_pressure", pgn := 65269, start_byte := 0,
    start_bit := 0, bit_length := 8, scale := 0.5, offset := 0.0,
    unit := "kPa", data_type := .Uint8 },
  { spn := 170, name := "cab_interior_temperature", pgn := 65269, start_byte := 1,
    start_bit := 0, bit_length := 16, scale := 0.03125, offset := -273.0,
    unit := "°C", data_type := .Uint16 },
  { spn := 171, name := "ambient_air_temperature", pgn := 65269, start_byte := 3,
    start_bit := 0, bit_length := 16, scale := 0.03125, offset := -273.0,
    unit := "°C", data_type := .Uint16 },
  { spn := 172, name := "air_inlet_temperature", pgn := 65269, start_byte := 5,
    start_bit := 0, bit_length := 8, scale := 1.0, offset := -40.0,
    unit := "°C", data_type := .Uint8 },
  { spn := 79, name := "road_surface_temperature", pgn := 65269, start_byte := 6,
    start_bit := 0, bit_length := 16, scale := 0.03125, offset := -273.0,
    unit := "°C", data_type := .Uint16 },
  { spn := 183, name := "fuel_rate", pgn := 65266, start_byte := 0,
    start_bit := 0, bit_length := 16, scale := 0.05, offset := 0.0,
    unit := "L/h", data_type := .Uint16 },
  { spn := 184, name := "instantaneous_fuel_economy", pgn := 65266, start_byte := 2,
    start_bit := 0, bit_length := 16, scale := 0.001953125, offset := 0.0,
    unit := "km/L", data_type := .Uint16 },
  { spn := 185, name := "average_fuel_economy", pgn := 65266, start_byte := 4,
    start_bit := 0, bit_length := 16, scale := 0.001953125, offset := 0.0,
    unit := "km/L", data_type := .Uint16 },
  { spn := 51, name := "throttle_position", pgn := 65266, start_byte := 6,
    start_bit := 0, bit_length := 8, scale := 0.4, offset := 0.0,
    unit := "%", data_type := .Uint8 },
  { spn := 247, name := "engine_total_hours_of_operation", pgn := 65253, start_byte := 0,
    start_bit := 0, bit_length := 32, scale := 0.05, offset := 0.0,
    unit := "h", data_type := .Uint32 },
  { spn := 249, name := "engine_total_revolutions", pgn := 65253, start_byte := 4,
    start_bit := 0, bit_length := 32, scale := 1000.0, offset := 0.0,
    unit := "r", data_type := .Uint32 },
  { spn := 1081, name := "engine_wait_to_start_lamp", pgn := 65252, start_byte := 0,
    start_bit := 0, bit_length := 2, scale := 1.0, offset := 0.0,
    unit := "", data_type := .Uint8 },
  { spn := 2432, name := "engine_protection_system_timer_override", pgn := 65252, start_byte := 0,
    start_bit := 2, bit_length := 2, scale := 1.0, offset := 0.0,
    unit := "", data_type := .Uint8 },
  { spn := 3384, name := "engine_protection_system_timer_state", pgn := 65252, start_byte := 0,
    start_bit := 4, bit_length := 2, scale := 1.0, offset := 0.0,
    unit := "", data_type := .Uint8 },
  { spn := 3385, name := "engine_protection_system_configuration", pgn := 65252, start_byte := 0,
    start_bit := 6, bit_length := 2, scale := 1.0, offset := 0.0,
    unit := "", data_type := .Uint8 },
  { spn := 182, name := "engine_trip_fuel", pgn := 65257, start_byte := 0,
    start_bit := 0, bit_length := 32, scale := 0.5, offset := 0.0,
    unit := "L", data_type := .Uint32 },
  { spn := 250, name := "engine_total_fuel_used", pgn := 65257, start_byte := 4,
    start_bit := 0, bit_length := 32, scale := 0.5, offset := 0.0,
    unit := "L", data_type := .Uint32 },
  { spn := 246, name := "engine_total_idle_hours", pgn := 65217, start_byte := 0,
    start_bit := 0, bit_length := 32, scale := 0.05, offset := 0.0,
    unit := "h", data_type := .Uint32 },
  { spn := 248, name := "engine_total_pto_hours", pgn := 65217, start_byte := 4,
    start_bit := 0, bit_length := 32, scale := 0.05, offset := 0.0,
    unit := "h", data_type := .Uint32 },
  { spn := 898, name := "engine_override_control_mode", pgn := 64966, start_byte := 0,
    start_bit := 0, bit_length := 2, scale := 1.0, offset := 0.0,
    unit := "", data_type := .Uint8 },
  { spn := 897, name := "engine_requested_speed_control_conditions", pgn := 64966, start_byte := 0,
    start_bit := 2, bit_length := 2, scale := 1.0, offset := 0.0,
    unit := "", data_type := .Uint8 },
  { spn := 518, name := "engine_requested_speed_speed_limit", pgn := 64966, start_byte := 1,
    start_bit := 0, bit_length := 16, scale := 0.125, offset := 0.0,
    unit := "RPM", data_type := .Uint16 },
  { spn := 3349, name := "tsc1_transmission_rate", pgn := 64966, start_byte := 4,
    start_bit := 0, bit_length := 3, scale := 1.0, offset := 0.0,
    unit := "", data_type := .Uint8 },
  { spn := 3563, name := "engine_fuel_filter_differential_pressure", pgn := 65243, start_byte := 0,
    start_bit := 0, bit_length := 8, scale := 2.0, offset := 0.0,
    unit := "kPa", data_type := .Uint8 },
  { spn := 3564, name := "engine_oil_filter_differential_pressure", pgn := 65243, start_byte := 1,
    start_bit := 0, bit_length := 8, scale := 0.5, offset := 0.0,
    unit := "kPa", data_type := .Uint8 },
  { spn := 5578, name := "engine_turbocharger_compressor_inlet_pressure", pgn := 65243, start_byte := 2,
    start_bit := 0, bit_length := 16, scale := 0.0078125, offset := 0.0,
    unit := "kPa", data_type := .Uint16 },
  { spn := 441, name := "auxiliary_temperature_1", pgn := 65188, start_byte := 0,
    start_bit := 0, bit_length := 16, scale := 0.03125, offset := -273.0,
    unit := "°C", data_type := .Uint16 },
  { spn := 442, name := "auxiliary_temperature_2", pgn := 65188, start_byte := 2,
    start_bit := 0, bit_length := 16, scale := 0.03125, offset := -273.0,
    unit := "°C", data_type := .Uint16 },
  { spn := 1638, name := "engine_oil_temperature_2", pgn := 65189, start_byte := 0,
    start_bit := 0, bit_length := 16, scale := 0.03125, offset := -273.0,
    unit := "°C", data_type := .Uint16 },
  { spn := 1639, name := "engine_exhaust_gas_recirculation_1_temperature", pgn := 65189, start_byte := 2,
    start_bit := 0, bit_length := 16, scale := 0.03125, offset := -273.0,
    unit := "°C", data_type := .Uint16 },
  { spn := 3237, name := "engine_charge_air_cooler_2_outlet_temperature", pgn := 65189, start_byte := 4,
    start_bit := 0, bit_length := 16, scale := 0.03125, offset := -273.0,
    unit := "°C", data_type := .Uint16 },
  { spn := 244, name := "trip_distance", pgn := 65248, start_byte := 0,
    start_bit := 0, bit_length := 32, scale := 0.125, offset := 0.0,
    unit := "km", data_type := .Uint32 },
  { spn := 245, name := "total_vehicle_distance", pgn := 65248, start_byte := 4,
    start_bit := 0, bit_length := 32, scale := 0.125, offset := 0.0,
    unit := "km", data_type := .Uint32 },
  { spn := 69, name := "two_speed_axle_switch", pgn := 65265, start_byte := 0,
    start_bit := 0, bit_length := 2, scale := 1.0, offset := 0.0,
    unit := "", data_type := .Uint8 },
  { spn := 70, name := "parking_brake_switch", pgn := 65265, start_byte := 0,
    start_bit := 2, bit_length := 2, scale := 1.0, offset := 0.0,
    unit := "", data_type := .Uint8 },
  { spn := 84, name := "wheel_based_vehicle_speed", pgn := 65265, start_byte := 1,
    start_bit := 0, bit_length := 16, scale := 0.00390625, offset := 0.0,
    unit := "km/h", data_type := .Uint16 },
  { spn := 595, name := "cruise_control_active", pgn := 65265, start_byte := 3,
    start_bit := 0, bit_length := 2, scale := 1.0, offset := 0.0,
    unit := "", data_type := .Uint8 },
  { spn := 596, name := "cruise_control_enable_switch", pgn := 65265, start_byte := 3,
    start_bit := 2, bit_length := 2, scale := 1.0, offset := 0.0,
    unit := "", data_type := .Uint8 },
  { spn := 86, name := "cruise_control_set_speed", pgn := 65265, start_byte := 5,
    start_bit := 0, bit_length := 8, scale := 1.0, offset := 0.0,
    unit := "km/h", data_type := .Uint8 },
  { spn := 976, name := "pto_state", pgn := 65265, start_byte := 6,
    start_bit := 0, bit_length := 5, scale := 1.0, offset := 0.0,
    unit := "", data_type := .Uint8 }]

/-- Function `get_spn_def`: first table entry with the given SPN number. -/
def get_spn_def (spn : Nat) : Option SpnDef :=
  SPN_DEFINITIONS.find? (fun s => s.spn = spn)

/-- Runtime point configuration (struct `J1939Point` in client.rs). -/
structure J1939Point where
  point_id : Nat
  name : String
  spn : Nat
  pgn : Nat
  start_byte : Nat
  start_bit : Nat
  bit_length : Nat
  scale : ℚ
  offset : ℚ
  data_type : SpnDataType
deriving DecidableEq, Repr

/-- The `From<&SpnDef> for J1939Point` conversion. -/
def J1939Point.fromSpnDef (d : SpnDef) : J1939Point :=
  { point_id := d.spn, name := d.name, spn := d.spn, pgn := d.pgn,
    start_byte := d.start_byte, start_bit := d.start_bit,
    bit_length := d.bit_length, scale := d.scale, offset := d.offset,
    data_type := d.data_type }

/-- Rust `as u64` on an `i64` value: two-complement reinterpretation,
i.e. the representative of `v` modulo `2 ^ 64`. -/
def u64_of_int (v : Int) : Nat :=
  (v % (2 ^ 64 : Int)).toNat

/-- The signed intermediate of `decode_spn` for `Int8` / `Int16` / `Int32`
points: the little-endian bytes at `start_byte` read as an `i8` / `i16` /
`i32` (with the length guards of the source), before the `as i64 as u64`
reinterpretation. Returns `none` for unsigned data types. -/
def extract_signed (data : List Nat) (p : J1939Point) : Option Int :=
  match p.data_type with
  | .Int8 =>
    let byte := data.getD p.start_byte 0
    some (if byte < 128 then (byte : Int) else (byte : Int) - 256)
  | .Int16 =>
    let idx := p.start_byte
    if data.length ≤ idx + 1 then none
    else
      let w := data.getD idx 0 + 256 * data.getD (idx + 1) 0
      some (if w < 2 ^ 15 then (w : Int) else (w : Int) - 2 ^ 16)
  | .Int32 =>
    let idx := p.start_byte
    if data.length ≤ idx + 3 then none
    else
      let w := data.getD idx 0 + 256 * data.getD (idx + 1) 0 +
        65536 * data.getD (idx + 2) 0 + 16777216 * data.getD (idx + 3) 0
      some (if w < 2 ^ 31 then (w : Int) else (w : Int) - 2 ^ 32)
  | _ => none

/-- The `raw_value` match of `J1939Client::decode_spn`: extract the raw
(u64) field value for a point from the frame bytes. Signed variants
sign-extend and reinterpret as `u64` (`as i64 as u64`). -/
def extract_raw (data : List Nat) (p : J1939Point) : Option Nat :=
  match p.data_type with
  | .Uint8 =>
    if p.bit_length = 8 ∧ p.start_bit = 0 then some (data.getD p.start_byte 0)
    else
      let byte := data.getD p.start_byte 0
      let mask := 2 ^ p.bit_length - 1
      some ((byte >>> p.start_bit) &&& mask)
  | .Uint16 =>
    let idx := p.start_byte
    if data.length ≤ idx + 1 then none
    else some (data.getD idx 0 + 256 * data.getD (idx + 1) 0)
  | .Uint32 =>
    let idx := p.start_byte
    if data.length ≤ idx + 3 then none
    else some (data.getD idx 0 + 256 * data.getD (idx + 1) 0 +
      65536 * data.getD (idx + 2) 0 + 16777216 * data.getD (idx + 3) 0)
  | .Int8 | .Int16 | .Int32 => (extract_signed data p).map u64_of_int

/-- Method `J1939Client::decode_spn`: length guard, raw extraction, the
not-available check `raw_value ≥ max_value - 1` with
`max_value = (1 << bit_length) - 1`, then `raw * scale + offset`.
(`max_value - 1` is `u64` subtraction in the source and truncated `Nat`
subtraction here; the two agree whenever `bit_length ≥ 1`, which holds for
every entry of `SPN_DEFINITIONS` — see `spn_definitions_bit_length_pos`.) -/
def decode_spn (data : List Nat) (point : J1939Point) : Option ℚ :=
  if data.length ≤ point.start_byte then none
  else
    match extract_raw data point with
    | none => none
    | some raw_value =>
      let max_value := 2 ^ point.bit_length - 1
      if max_value - 1 ≤ raw_value then none
      else some ((raw_value : ℚ) * point.scale + point.offset)


/-! ## Concrete inputs used by counterexamples and witnesses -/

/-- A telemetry point carrying a float value, for the router claims. -/
def c1_point (v : ℚ) : DataPoint :=
  { id := 1, data_type := .Telemetry, value := .Float v, quality := .Good,
    timestamp := 0, source_timestamp := none }

/-- A mapping with a `Deadband 0.5` trigger. -/
def c1_mapping : PointMapping :=
  { source_channel := 1, source_point := "t", target_channel := 2,
    target_point := some "t", transform := TransformConfig.default_,
    enabled := true, trigger := some (.Deadband 0.5) }

/-- Router state whose last forwarded value for `(1, "t")` is `10.0`. -/
def c1_state : RouterState :=
  { last_values := [((1, "t"), Value.Float 10)], last_forward := [] }

/-- A Modbus channel configuration with one well-formed enabled point and
one enabled point whose shorthand address does not parse. -/
def c3_channel_config : ChannelConfig :=
  { id := 1, name := "plc", protocol := "modbus", enabled := true,
    mode := .Polling, poll_interval_ms := none, parameters := .obj [],
    points := [
      { id := 1001, name := "ok_point", address := "1:100",
        transform := TransformConfig.default_, enabled := true },
      { id := 1002, name := "bad_point", address := "x:y",
        transform := TransformConfig.default_, enabled := true } ] }

/-! ## Helper lemmas -/

/-- Splitting a colon-free character list yields the list itself as the only
part. -/
theorem split_colon_no_colon (l : List Char) (h : ':' ∉ l) :
    split_colon l = [l] := by
  induction l with
  | nil => rfl
  | cons c cs ih =>
    have hc : ¬ c = ':' := fun e => h (by simp [e])
    have h' : ':' ∉ cs := fun hm => h (List.mem_cons_of_mem _ hm)
    simp [split_colon, hc, ih h']

/-- Splitting around an explicit colon separates the colon-free part before
it. -/
theorem split_colon_append (la lb : List Char) (ha : ':' ∉ la) :
    split_colon (la ++ ':' :: lb) = la :: split_colon lb := by
  induction la with
  | nil => simp [split_colon]
  | cons c cs ih =>
    have hc : ¬ c = ':' := fun e => ha (by simp [e])
    have h' : ':' ∉ cs := fun hm => ha (List.mem_cons_of_mem _ hm)
    simp [split_colon, hc, ih h']

/-- The embedded `f64::abs` agrees with the absolute value on `ℚ`. -/
theorem f64_abs_eq_abs (x : ℚ) : f64_abs x = |x| := by
  rcases lt_or_le x 0 with h | h
  · simp [f64_abs, h, abs_of_neg h]
  · simp [f64_abs, not_lt.mpr h, abs_of_nonneg h]

/-- Every entry of the SPN table has a positive bit length (so the `u64`
subtraction `max_value - 1` of the source never wraps on table entries). -/
theorem spn_definitions_bit_length_pos : ∀ d ∈ SPN_DEFINITIONS, 1 ≤ d.bit_length := by
  decide

/-- Every entry of the SPN table has bit length at most 32. -/
theorem spn_definitions_bit_length_le : ∀ d ∈ SPN_DEFINITIONS, d.bit_length ≤ 32 := by
  decide

/-- The four per-type component lists after a sequence of `DataBatch::add`
calls: each component receives exactly the points of its type, in order. -/
theorem addAll_parts (ps : List DataPoint) : ∀ b : DataBatch,
    (b.addAll ps).telemetry = b.telemetry ++ ps.filter (fun p => p.data_type == DataType.Telemetry) ∧
    (b.addAll ps).signal = b.signal ++ ps.filter (fun p => p.data_type == DataType.Signal) ∧
    (b.addAll ps).control = b.control ++ ps.filter (fun p => p.data_type == DataType.Control) ∧
    (b.addAll ps).adjustment = b.adjustment ++ ps.filter (fun p => p.data_type == DataType.Adjustment) := by
  induction ps with
  | nil => intro b; simp [DataBatch.addAll]
  | cons p ps ih =>
    intro b
    obtain ⟨h1, h2, h3, h4⟩ := ih (b.add p)
    refine ⟨?_, ?_, ?_, ?_⟩ <;>
      simp only [DataBatch.addAll, List.foldl_cons] at h1 h2 h3 h4 ⊢ <;>
      rw [List.filter_cons] <;>
      cases hdt : p.data_type <;>
      simp_all [DataBatch.add]

/-! ## Claim theorems -/

/-- Claim C4: for every `TransformConfig` with nonzero scale and every value
`x`, `reverse_apply (apply x) = x`, where `apply x = x * scale + offset` and
`reverse_apply y = (y - offset) / scale`. -/
theorem transform_reverse_apply_apply (t : TransformConfig) (h : t.scale ≠ 0) (x : ℚ) :
    t.reverse_apply (t.apply x) = x := by
  simp only [TransformConfig.apply, TransformConfig.reverse_apply]
  rw [add_sub_cancel_right, mul_div_assoc, div_self h, mul_one]

/-- Witness for C4 at `scale = 2`, `offset = 3`, `x = 5`. -/
theorem transform_reverse_apply_apply_witness :
    (TransformConfig.linear 2 3).reverse_apply ((TransformConfig.linear 2 3).apply 5) = 5 :=
  transform_reverse_apply_apply (TransformConfig.linear 2 3) (by decide) 5

/-- Claim C5: the OPC status round trip collapses every quality to its
severity class: `Good` exactly for `Good`; `Uncertain` exactly for
`Uncertain`, `Substituted` and `LastKnown`; `Bad` for every other quality. -/
theorem from_opc_status_to_opc_status (q : Quality) :
    Quality.from_opc_status q.to_opc_status =
      (if q = .Good then .Good
       else if q = .Uncertain ∨ q = .Substituted ∨ q = .LastKnown then .Uncertain
       else .Bad) := by
  cases q <;> decide

/-- Claim C10: iterating a batch built by any sequence of `add` calls yields
all telemetry points, then all signals, then all controls, then all
adjustments, each group in insertion order. -/
theorem databatch_iter_grouped (ps : List DataPoint) :
    (DataBatch.new.addAll ps).iter =
      ps.filter (fun p => p.data_type == DataType.Telemetry) ++
      ps.filter (fun p => p.data_type == DataType.Signal) ++
      ps.filter (fun p => p.data_type == DataType.Control) ++
      ps.filter (fun p => p.data_type == DataType.Adjustment) := by
  obtain ⟨h1, h2, h3, h4⟩ := addAll_parts ps DataBatch.new
  simp only [DataBatch.iter, h1, h2, h3, h4]
  simp [DataBatch.new]


/-- Claim C1, counterexample: with deadband `d = 0.5` and stored last value
`10.0`, an incoming `10.5` has a delta of exactly `d` — and the code
forwards it (`should_forward` returns `true`), because the source only skips
when the absolute delta is strictly below the deadband. The claim states
that a delta of exactly `d` does not forward. -/
theorem deadband_exact_delta_forwards :
    (should_forward 0 c1_state c1_mapping (c1_point 10.5)).fst = true := by
  with_unfolding_all decide

/-- Claim C1 as amended: under a `Deadband d` trigger, for a numeric
incoming value with a stored numeric last forwarded value, the point is
forwarded exactly when the absolute delta is at least `d` (so a delta of
exactly `d` forwards and a delta strictly below `d` does not); the first
value for a key always forwards, and non-numeric values always forward. -/
theorem deadband_trigger_semantics (now : Nat) (st : RouterState) (m : PointMapping)
    (p : DataPoint) (d : ℚ) (htrig : m.trigger = some (.Deadband d)) :
    (∀ v lv, p.value.as_f64 = some v →
       ((st.last_values.lookup (m.source_channel, m.source_point)).bind Value.as_f64 = some lv) →
       ((should_forward now st m p).fst = true ↔ d ≤ |v - lv|)) ∧
    (st.last_values.lookup (m.source_channel, m.source_point) = none →
       (should_forward now st m p).fst = true) ∧
    (p.value.as_f64 = none → (should_forward now st m p).fst = true) := by
  refine ⟨?_, ?_, ?_⟩
  · intro v lv hv hlv
    simp only [should_forward, htrig, Option.getD_some, hv, hlv, f64_abs_eq_abs]
    split
    · next hlt => simp [not_le.mpr hlt]
    · next hge => simp [not_lt.mp hge]
  · intro hnone
    rcases hv : p.value.as_f64 with _ | v <;>
      simp [should_forward, htrig, Option.getD_some, hv, hnone]
  · intro hv
    simp [should_forward, htrig, Option.getD_some, hv]

/-- Witness for the amended C1: stored last value `10.0`, incoming `11.0`,
deadband `0.5`; the delta `1.0` is at least the deadband, so the point is
forwarded. -/
theorem deadband_trigger_semantics_witness :
    (should_forward 0 c1_state c1_mapping (c1_point 11)).fst = true :=
  ((deadband_trigger_semantics 0 c1_state c1_mapping (c1_point 11) 0.5 rfl).1
    11 10 rfl (by decide)).mpr (by norm_num)

/-- Claim C2: the claim asserts that all `spn` fields of `SPN_DEFINITIONS`
are pairwise distinct; in fact SPN 2432 occurs twice, at index 7 (PGN 61444,
`engine_demand_percent_torque`) and index 59 (PGN 65252,
`engine_protection_system_timer_override`), under two different PGNs. -/
theorem spn_definitions_duplicate_spn :
    ∃ i j : Fin SPN_DEFINITIONS.length, i.val ≠ j.val ∧
      (SPN_DEFINITIONS.get i).spn = (SPN_DEFINITIONS.get j).spn ∧
      (SPN_DEFINITIONS.get i).pgn ≠ (SPN_DEFINITIONS.get j).pgn := by
  refine ⟨⟨7, by decide⟩, ⟨59, by decide⟩, by decide, by decide, by decide⟩

/-- Claim C3: the factory aborts channel creation on the first point whose
shorthand address fails to parse, instead of accumulating a warning: on a
channel with a well-formed enabled point and a malformed one ("x:y"),
`build_point_configs` returns a `Config` error (which every
`create_*_channel` propagates with `?`), rather than the remaining
successfully parsed points. -/
theorem build_point_configs_aborts_on_parse_failure :
    build_point_configs c3_channel_config = .error (.Config ("Invalid slave_id: x")) := by
  with_unfolding_all rfl

/-- Shifted disjoint-or is addition: `a <<< k` and `b < 2 ^ k` do not share
bits. -/
theorem lor_mul_pow_add (a b k : Nat) (hb : b < 2 ^ k) :
    a * 2 ^ k ||| b = a * 2 ^ k + b := by
  calc a * 2 ^ k ||| b = 2 ^ k * a ||| b := by rw [Nat.mul_comm]
    _ = 2 ^ k * a + b := (Nat.mul_add_lt_is_or hb a).symm
    _ = a * 2 ^ k + b := by rw [Nat.mul_comm]

/-- Claim C6: for every SPN definition and frame long enough for the
extraction, an extracted raw value equal to `max` or `max - 1` (with
`max = 2 ^ bit_length - 1`) makes `decode_spn` return `none`: no data point
is emitted for the SPN. -/
theorem decode_spn_not_available (d : SpnDef) (_hd : d ∈ SPN_DEFINITIONS)
    (data : List Nat) (raw : Nat)
    (hraw : extract_raw data (J1939Point.fromSpnDef d) = some raw)
    (hval : raw = 2 ^ d.bit_length - 1 ∨ raw = 2 ^ d.bit_length - 1 - 1) :
    decode_spn data (J1939Point.fromSpnDef d) = none := by
  unfold decode_spn
  split
  · rfl
  · rw [hraw]
    have hle : 2 ^ (J1939Point.fromSpnDef d).bit_length - 1 - 1 ≤ raw := by
      have hbld : (J1939Point.fromSpnDef d).bit_length = d.bit_length := rfl
      rcases hval with h | h <;> (rw [hbld]; omega)
    simp [hle]

/-- Witness for C6: the first table entry (SPN 899, 4-bit field) on the
one-byte frame `[0x0F]` extracts `raw = 15 = max` and decodes to nothing. -/
theorem decode_spn_not_available_witness :
    decode_spn [15] (J1939Point.fromSpnDef
      { spn := 899, name := "engine_torque_mode", pgn := 61444, start_byte := 0,
        start_bit := 0, bit_length := 4, scale := 1.0, offset := 0.0,
        unit := "", data_type := .Uint8 }) = none :=
  decode_spn_not_available _
    (by
      have h : SPN_DEFINITIONS.get ⟨0, by decide⟩ =
          { spn := 899, name := "engine_torque_mode", pgn := 61444, start_byte := 0,
            start_bit := 0, bit_length := 4, scale := 1.0, offset := 0.0,
            unit := "", data_type := .Uint8 } := rfl
      exact h ▸ List.get_mem _ _ _)
    [15] 15 (by decide) (Or.inl (by decide))

/-- Claim C7: for every SPN definition with a signed data type, a frame
whose extracted signed reading is negative decodes to `none`: the
`as i64 as u64` reinterpretation makes the raw value at least
`2 ^ 64 - 2 ^ 32`, which always trips the not-available comparison
`raw ≥ 2 ^ bit_length - 2` (every table entry has `bit_length ≤ 32`). -/
theorem decode_spn_signed_negative (d : SpnDef) (hd : d ∈ SPN_DEFINITIONS)
    (data : List Nat) (v : Int)
    (hsv : extract_signed data (J1939Point.fromSpnDef d) = some v)
    (hneg : v < 0) :
    decode_spn data (J1939Point.fromSpnDef d) = none := by
  have hbl : d.bit_length ≤ 32 := spn_definitions_bit_length_le d hd
  have hvlb : -(2 ^ 32 : Int) ≤ v := by
    cases htype : (J1939Point.fromSpnDef d).data_type
    case Uint8 => simp [extract_signed, htype] at hsv
    case Uint16 => simp [extract_signed, htype] at hsv
    case Uint32 => simp [extract_signed, htype] at hsv
    case Int8 =>
      simp only [extract_signed, htype] at hsv
      rw [Option.some.injEq] at hsv
      split at hsv <;> omega
    case Int16 =>
      simp only [extract_signed, htype] at hsv
      split at hsv
      · simp at hsv
      · rw [Option.some.injEq] at hsv
        split at hsv <;> omega
    case Int32 =>
      simp only [extract_signed, htype] at hsv
      split at hsv
      · simp at hsv
      · rw [Option.some.injEq] at hsv
        split at hsv <;> omega
  unfold decode_spn
  split
  · rfl
  · have hraw : extract_raw data (J1939Point.fromSpnDef d) = some (u64_of_int v) := by
      cases htype : (J1939Point.fromSpnDef d).data_type
      case Uint8 => simp [extract_signed, htype] at hsv
      case Uint16 => simp [extract_signed, htype] at hsv
      case Uint32 => simp [extract_signed, htype] at hsv
      case Int8 =>
        simp only [extract_raw, htype]
        rw [hsv]
        rfl
      case Int16 =>
        simp only [extract_raw, htype]
        rw [hsv]
        rfl
      case Int32 =>
        simp only [extract_raw, htype]
        rw [hsv]
        rfl
    rw [hraw]
    have hge : 2 ^ (J1939Point.fromSpnDef d).bit_length - 1 - 1 ≤ u64_of_int v := by
      have hbld : (J1939Point.fromSpnDef d).bit_length = d.bit_length := rfl
      have h2 : (2 : Nat) ^ d.bit_length ≤ 2 ^ 32 :=
        Nat.pow_le_pow_right (by norm_num) hbl
      rw [hbld]
      unfold u64_of_int
      omega
    simp [hge]

/-- Witness for C7: SPN 114 (net battery current, Int16 at byte 0) on the
frame `[0x00, 0x80]` reads the signed value `-32768 < 0` and decodes to
nothing. -/
theorem decode_spn_signed_negative_witness :
    decode_spn [0, 128] (J1939Point.fromSpnDef
      { spn := 114, name := "net_battery_current", pgn := 65271, start_byte := 0,
        start_bit := 0, bit_length := 16, scale := 1.0, offset := -125.0,
        unit := "A", data_type := .Int16 }) = none :=
  decode_spn_signed_negative _
    (by
      have h : SPN_DEFINITIONS.get ⟨43, by decide⟩ =
          { spn := 114, name := "net_battery_current", pgn := 65271, start_byte := 0,
            start_bit := 0, bit_length := 16, scale := 1.0, offset := -125.0,
            unit := "A", data_type := .Int16 } := rfl
      exact h ▸ List.get_mem _ _ _)
    [0, 128] (-32768) (by decide) (by decide)

/-- Claim C8: `parse_can_id` returns `priority = (id >> 26) & 7` and
`sa = id & 0xFF`, and computes the PGN from `dp = (id >> 24) & 1`,
`pf = (id >> 16) & 0xFF` and `ps = (id >> 8) & 0xFF` as
`(dp << 16) | (pf << 8) | ps` for `pf ≥ 240` (PDU2) and `(dp << 16) | (pf << 8)`
for `pf < 240` (PDU1); all bit operations are stated arithmetically. -/
theorem parse_can_id_spec (can_id : Nat) (_h29 : can_id < 2 ^ 29) :
    parse_can_id can_id =
      (can_id / 2 ^ 26 % 8,
       (if 240 ≤ can_id / 2 ^ 16 % 256 then
          can_id / 2 ^ 24 % 2 * 2 ^ 16 + can_id / 2 ^ 16 % 256 * 2 ^ 8 + can_id / 2 ^ 8 % 256
        else can_id / 2 ^ 24 % 2 * 2 ^ 16 + can_id / 2 ^ 16 % 256 * 2 ^ 8),
       can_id / 2 ^ 8 % 256,
       can_id % 256) := by
  have e1 : can_id &&& 0xFF = can_id % 256 := by
    simpa using Nat.and_pow_two_sub_one_eq_mod can_id 8
  have e2 : (can_id >>> 8) &&& 0xFF = can_id / 2 ^ 8 % 256 := by
    rw [Nat.shiftRight_eq_div_pow]
    simpa using Nat.and_pow_two_sub_one_eq_mod (can_id / 2 ^ 8) 8
  have e3 : (can_id >>> 16) &&& 0xFF = can_id / 2 ^ 16 % 256 := by
    rw [Nat.shiftRight_eq_div_pow]
    simpa using Nat.and_pow_two_sub_one_eq_mod (can_id / 2 ^ 16) 8
  have e4 : (can_id >>> 24) &&& 0x01 = can_id / 2 ^ 24 % 2 := by
    rw [Nat.shiftRight_eq_div_pow]
    simp [Nat.and_pow_two_sub_one_eq_mod (can_id / 2 ^ 24) 1]
  have e5 : (can_id >>> 26) &&& 0x07 = can_id / 2 ^ 26 % 8 := by
    rw [Nat.shiftRight_eq_div_pow]
    simpa using Nat.and_pow_two_sub_one_eq_mod (can_id / 2 ^ 26) 3
  have hpf : can_id / 2 ^ 16 % 256 < 256 := Nat.mod_lt _ (by norm_num)
  have hps : can_id / 2 ^ 8 % 256 < 256 := Nat.mod_lt _ (by norm_num)
  simp only [parse_can_id, e1, e2, e3, e4, e5, Nat.shiftLeft_eq]
  split
  · rw [Nat.lor_assoc, lor_mul_pow_add _ _ 8 hps, lor_mul_pow_add _ _ 16 (by omega)]
    rw [Nat.add_assoc]
  · rw [lor_mul_pow_add _ _ 16 (by omega)]

/-- Witness for C8: the spec scenario frame id `0x0CF00400` parses to
priority 3, PGN 61444 (EEC1), `ps = 4`, `sa = 0`. -/
theorem parse_can_id_spec_witness : parse_can_id 217056256 = (3, 61444, 4, 0) :=
  (parse_can_id_spec 217056256 (by norm_num)).trans (by decide)

/-- Claim C9: parsing a two-field Modbus shorthand `"a:b"` (with colon-free
fields) succeeds with `slave_id = a`, `register = b`, `function_code = 3`,
`format = UInt16`, `byte_order = Abcd` and no bit position exactly when `a`
parses as a `u8` and `b` as a `u16`; otherwise it is a `Config` error
naming the offending field. -/
theorem parse_modbus_two_field (a b : String) (ha : ':' ∉ a.toList) (hb : ':' ∉ b.toList) :
    parse_modbus_address (a ++ ":" ++ b) =
      (match parse_uint 8 a with
       | none => .error (.Config ("Invalid slave_id: " ++ a))
       | some slave_id =>
         match parse_uint 16 b with
         | none => .error (.Config ("Invalid register: " ++ b))
         | some register =>
           .ok (.Modbus { slave_id := slave_id, register := register,
                          function_code := 3, format := .UInt16,
                          byte_order := .Abcd, bit_position := none })) := by
  have hsplit : (a ++ ":" ++ b).toList = a.toList ++ ':' :: b.toList := by
    simp [String.toList]
  unfold parse_modbus_address
  rw [hsplit, split_colon_append _ _ ha, split_colon_no_colon _ hb]
  rcases h8 : parse_uint 8 a with _ | slave_id <;>
    rcases h16 : parse_uint 16 b with _ | register <;>
    simp [h8, h16, ModbusAddress.holding_register]

/-- Witness for C9: `"1:100"` parses to slave 1, register 100 with all the
defaults, via the two-field theorem at `a = "1"`, `b = "100"`. -/
theorem parse_modbus_two_field_witness :
    parse_modbus_address ("1:100") =
      .ok (.Modbus { slave_id := 1, register := 100, function_code := 3,
                     format := .UInt16, byte_order := .Abcd,
                     bit_position := none }) := by
  have h := parse_modbus_two_field ("1") ("100") (by decide) (by decide)
  rw [show ("1" : String) ++ ":" ++ "100" = "1:100" from rfl] at h
  rw [h]
  rfl

end Igw
